import Mathlib

/-!
Verification of the paper-trading core of the `trading-strategy` repository.

The Python modules under `src/trading_core/paper/` (sizing, risk, oracle,
engine) and `src/trading_core/strategy/strategies/funding.py` are shallowly
embedded below.  Python `Decimal` values (and the floats that are converted
to `Decimal` via `Decimal(str(x))` before any arithmetic) are modelled as
exact rationals `ℚ`; monotonic clocks and UTC timestamps are rationals in
seconds; database rows are Lean structures and result lists.
-/

namespace TradingCore

/-- Trade direction.  The data model restricts `direction` to
`{LONG, SHORT}`; `calculate_pnl` and friends branch on `== "LONG"` with
`SHORT` as the only other inhabitant. -/
inductive Direction where
  | LONG
  | SHORT
deriving DecidableEq, Repr

/-- Signed direction: `+1` for LONG, `-1` for SHORT — the `direction_sign` of the spec. -/
def direction_sign : Direction → ℚ
  | .LONG => 1
  | .SHORT => -1

/-- Embeds `PaperConfig` (config/schema.py plus the attributes the paper engine and
sizing module read from it: `kelly_base_win_prob`, `slippage_pct`,
`fee_pct`).  The two per-venue maps are modelled as total functions already
combined with the `.get(venue, 0.0)` default used at every call site. -/
structure PaperConfig where
  initial_capital : ℚ := 10000
  risk_pct : ℚ := 1/50
  default_stop_loss_pct : ℚ := 1/50
  default_take_profit_pct : ℚ := 1/25
  default_timeout_minutes : ℚ := 60
  max_positions_per_strategy : ℕ := 3
  max_total_exposure_pct : ℚ := 1/2
  max_daily_loss_per_strategy : ℚ := 500
  cooldown_after_loss_minutes : ℚ := 5
  kelly_enabled : Bool := true
  kelly_safety_factor : ℚ := 1/2
  kelly_base_win_prob : ℚ := 1/2
  slippage_pct : String → ℚ := fun _ => 0
  fee_pct : String → ℚ := fun _ => 0

/-! ## sizing.py — pure position-sizing and P&L functions -/

/-- Embeds `calculate_position_size` (sizing.py 10–26): fixed-fractional sizing,
`risk_amount / stop_distance`, returning 0 when the stop distance is 0. -/
def calculate_position_size (entry_price equity risk_pct stop_loss_pct : ℚ) : ℚ :=
  let stop_distance := entry_price * stop_loss_pct
  let risk_amount := equity * risk_pct
  if stop_distance = 0 then 0 else risk_amount / stop_distance

/-- Embeds `calculate_pnl` (sizing.py 29–43): gross realised P&L of a closed
position; LONG `(exit − entry)·qty`, otherwise `(entry − exit)·qty`. -/
def calculate_pnl (direction : Direction) (entry_price exit_price quantity : ℚ) : ℚ :=
  match direction with
  | .LONG => (exit_price - entry_price) * quantity
  | .SHORT => (entry_price - exit_price) * quantity

/-- Embeds `calculate_stop_price` (sizing.py 46–60). -/
def calculate_stop_price (direction : Direction) (entry_price stop_loss_pct : ℚ) : ℚ :=
  match direction with
  | .LONG => entry_price * (1 - stop_loss_pct)
  | .SHORT => entry_price * (1 + stop_loss_pct)

/-- Embeds `calculate_take_profit_price` (sizing.py 63–77). -/
def calculate_take_profit_price (direction : Direction) (entry_price take_profit_pct : ℚ) : ℚ :=
  match direction with
  | .LONG => entry_price * (1 + take_profit_pct)
  | .SHORT => entry_price * (1 - take_profit_pct)

/-- Embeds `calculate_kelly_fraction` (sizing.py 80–102): `b = tp/stop`,
`kelly = (p·b − (1−p))/b`, scaled by the safety factor; 0 when the stop
percentage is zero, the ratio `b` is zero, or the edge is non-positive. -/
def calculate_kelly_fraction (confidence stop_loss_pct take_profit_pct safety_factor : ℚ) : ℚ :=
  if stop_loss_pct = 0 then 0
  else
    let b := take_profit_pct / stop_loss_pct
    if b = 0 then 0
    else
      let kelly := (confidence * b - (1 - confidence)) / b
      if kelly ≤ 0 then 0 else kelly * safety_factor

/-- Embeds `confidence_to_win_prob` (sizing.py 105–113): `p = base + c·(1 − base)`. -/
def confidence_to_win_prob (confidence base_rate : ℚ) : ℚ :=
  base_rate + confidence * (1 - base_rate)

/-- Embeds `calculate_kelly_allocation` (sizing.py 116–137): 0 when Kelly is
disabled or confidence is absent, else the scaled Kelly fraction of the
mapped win probability. -/
def calculate_kelly_allocation (confidence : Option ℚ) (config : PaperConfig) : ℚ :=
  if config.kelly_enabled = false then 0
  else
    match confidence with
    | none => 0
    | some c =>
        calculate_kelly_fraction (confidence_to_win_prob c config.kelly_base_win_prob)
          config.default_stop_loss_pct config.default_take_profit_pct
          config.kelly_safety_factor

/-- Embeds `calculate_position_size_kelly` (sizing.py 140–157):
`min(equity·alloc, equity·risk_pct/stop_pct) / entry`, 0 when the entry
price is zero or the allocation non-positive. -/
def calculate_position_size_kelly (entry_price equity kelly_allocation risk_pct stop_loss_pct : ℚ) : ℚ :=
  if entry_price = 0 ∨ kelly_allocation ≤ 0 then 0
  else
    let notional := equity * kelly_allocation
    let max_notional := equity * risk_pct / stop_loss_pct
    min notional max_notional / entry_price

/-- Embeds `apply_slippage` (sizing.py 160–187). -/
def apply_slippage (price : ℚ) (direction : Direction) (slippage_pct : ℚ) (is_entry : Bool) : ℚ :=
  if is_entry then
    match direction with
    | .LONG => price * (1 + slippage_pct)
    | .SHORT => price * (1 - slippage_pct)
  else
    match direction with
    | .LONG => price * (1 - slippage_pct)
    | .SHORT => price * (1 + slippage_pct)

/-- Embeds `calculate_fees` (sizing.py 190–203): round-trip fees,
`(entry_notional + exit_notional)·fee_pct`. -/
def calculate_fees (entry_price exit_price quantity fee_pct : ℚ) : ℚ :=
  let entry_notional := entry_price * quantity
  let exit_notional := exit_price * quantity
  (entry_notional + exit_notional) * fee_pct

/-! ## risk.py — risk verdicts, per-strategy tracker, composite gate

Timestamps are rationals in seconds since the UTC epoch, so
`datetime.strftime("%Y-%m-%d")` on a UTC datetime is modelled by the UTC
day number `⌊t / 86400⌋`, and `(a − b).total_seconds()` by `a − b`. -/

/-- Embeds `RiskVerdict` (risk.py 14–19). -/
structure RiskVerdict where
  allowed : Bool
  reason : String := ""
deriving DecidableEq, Repr

/-- Embeds `_StrategyState` (risk.py 22–29).  The initial `day_key = ""` sentinel
(matching no real date) is modelled as `none`. -/
structure StrategyState where
  daily_loss : ℚ := 0
  daily_wins : ℚ := 0
  last_loss_ts : Option ℚ := none
  day_key : Option ℤ := none
deriving DecidableEq, Repr

/-- UTC day key of a timestamp in seconds, the model of
`now.strftime("%Y-%m-%d")`. -/
def utc_day (t : ℚ) : ℤ := ⌊t / 86400⌋

/-- The fields used by the risk checks and close path of `PositionRow`
(db/tables/paper.py); a value of this type is an OPEN (for the gate) or
being-closed (for `close_position`) row. -/
structure Position where
  strategy : String
  asset : String
  exchange : String
  direction : Direction
  entry_price : ℚ
  quantity : ℚ
deriving DecidableEq, Repr

/-- Embeds `RiskTracker` (risk.py 32–70): in-memory per-strategy state.  The
`defaultdict(_StrategyState)` is a total function defaulting to the empty
state. -/
structure RiskTracker where
  config : PaperConfig
  states : String → StrategyState := fun _ => {}

/-- Embeds `RiskTracker._get_state` (risk.py 39–47): the state read for `strategy`
at time `now`, with daily counters reset when the UTC day key changed.
(The Python method also writes the refreshed state back; every caller
observes exactly the returned value, so the read-back value is what the
claims are about.) -/
def RiskTracker.get_state (t : RiskTracker) (strategy : String) (now : ℚ) : StrategyState :=
  let state := t.states strategy
  if state.day_key = some (utc_day now) then state
  else { state with daily_loss := 0, daily_wins := 0, day_key := some (utc_day now) }

/-- Embeds `RiskTracker.record_close` (risk.py 49–56): accumulate daily P&L and
set the cooldown timestamp on a loss. -/
def RiskTracker.record_close (t : RiskTracker) (strategy : String) (pnl : ℚ) (ts : ℚ) : RiskTracker :=
  let state := t.get_state strategy ts
  let state' :=
    if pnl < 0 then
      { state with daily_loss := state.daily_loss + |pnl|, last_loss_ts := some ts }
    else
      { state with daily_wins := state.daily_wins + pnl }
  { t with states := fun k => if k = strategy then state' else t.states k }

/-- Embeds `RiskTracker.is_strategy_paused` (risk.py 58–62):
`daily_loss − daily_wins > max_daily_loss_per_strategy`. -/
def RiskTracker.is_strategy_paused (t : RiskTracker) (strategy : String) (now : ℚ) : Bool :=
  let state := t.get_state strategy now
  decide (state.daily_loss - state.daily_wins > t.config.max_daily_loss_per_strategy)

/-- Embeds `RiskTracker.is_in_cooldown` (risk.py 64–70): a loss was recorded and
`now − last_loss_ts < cooldown_after_loss_minutes · 60`. -/
def RiskTracker.is_in_cooldown (t : RiskTracker) (strategy : String) (now : ℚ) : Bool :=
  let state := t.get_state strategy now
  match state.last_loss_ts with
  | none => false
  | some ts => decide (now - ts < t.config.cooldown_after_loss_minutes * 60)

/-- Embeds `check_max_positions_per_strategy` (risk.py 76–88): reject when the
strategy already has `count ≥ limit` open positions, with the
`"max_positions_per_strategy (count/limit)"` reason string. -/
def check_max_positions_per_strategy (strategy : String) (open_positions : List Position)
    (limit : ℕ) : RiskVerdict :=
  let count := (open_positions.filter (fun p => p.strategy = strategy)).length
  if count ≥ limit then
    { allowed := false
      reason := "max_positions_per_strategy (" ++ toString count ++ "/" ++ toString limit ++ ")" }
  else
    { allowed := true }

/-- Embeds `check_max_total_exposure` (risk.py 91–109): reject when current
notional exposure plus the prospective notional exceeds
`equity · limit_pct`.  (The Python reason string also embeds the two
figures formatted `%.0f`; no claim depends on that formatting, so the
reason is modelled by its constant prefix.) -/
def check_max_total_exposure (open_positions : List Position)
    (equity new_position_value limit_pct : ℚ) : RiskVerdict :=
  let current_exposure := (open_positions.map (fun p => p.entry_price * p.quantity)).sum
  let total := current_exposure + new_position_value
  let limit_value := equity * limit_pct
  if total > limit_value then
    { allowed := false, reason := "max_total_exposure" }
  else
    { allowed := true }

/-- Embeds `evaluate_risk` (risk.py 112–146): composite risk gate returning the
first failing verdict — daily pause, then cooldown, then max positions per
strategy, then max total exposure — or ALLOW. -/
def evaluate_risk (config : PaperConfig) (tracker : RiskTracker) (strategy : String)
    (open_positions : List Position) (equity new_position_value : ℚ) (now : ℚ) : RiskVerdict :=
  if tracker.is_strategy_paused strategy now then
    { allowed := false, reason := "daily_loss_limit_exceeded" }
  else if tracker.is_in_cooldown strategy now then
    { allowed := false, reason := "cooldown_active" }
  else
    let verdict := check_max_positions_per_strategy strategy open_positions
      config.max_positions_per_strategy
    if verdict.allowed = false then verdict
    else
      let verdict2 := check_max_total_exposure open_positions equity new_position_value
        config.max_total_exposure_pct
      if verdict2.allowed = false then verdict2
      else { allowed := true }

/-! ## oracle.py — in-memory price cache

`time.monotonic()` is an explicit `now : ℚ` argument; the two caches are
total functions `asset → Option PriceEntry`.  The Polymarket DB fallback
(`_get_pm_price_from_db`, a query for the latest non-null `yes_price`)
is an explicit `db : Option ℚ` argument whose `none` covers both a missing
session handle and an empty query result. -/

/-- Embeds `PriceEntry` (oracle.py 20–26). -/
structure PriceEntry where
  price : ℚ
  updated_at : ℚ
  source : String
deriving DecidableEq, Repr

/-- Embeds `PriceOracle` (oracle.py 29–49): the cache state and the two staleness
thresholds. -/
structure PriceOracle where
  hl_prices : String → Option PriceEntry := fun _ => none
  pm_prices : String → Option PriceEntry := fun _ => none
  staleness_s : ℚ := 30
  pm_staleness_s : ℚ := 600

/-- Embeds `PriceOracle._get_hl_price` (oracle.py 171–178): cached HL price when
fresh, else `none`. -/
def PriceOracle.get_hl_price (o : PriceOracle) (asset : String) (now : ℚ) : Option ℚ :=
  match o.hl_prices asset with
  | none => none
  | some entry => if now - entry.updated_at > o.staleness_s then none else some entry.price

/-- Embeds `PriceOracle._get_pm_price` (oracle.py 180–194): cached PM price when
fresh, else the DB fallback (which the Python code also writes back into
the cache; the returned value, which the claims are about, is the fallback
value itself). -/
def PriceOracle.get_pm_price (o : PriceOracle) (asset : String) (db : Option ℚ) (now : ℚ) : Option ℚ :=
  match o.pm_prices asset with
  | some entry =>
      if now - entry.updated_at ≤ o.pm_staleness_s then some entry.price else db
  | none => db

/-- Embeds `PriceOracle.get_price` (oracle.py 53–68): dispatch on the exchange;
any venue other than `hyperliquid` / `polymarket` yields `none`. -/
def PriceOracle.get_price (o : PriceOracle) (asset exchange : String) (db : Option ℚ)
    (now : ℚ) : Option ℚ :=
  if exchange = "hyperliquid" then o.get_hl_price asset now
  else if exchange = "polymarket" then o.get_pm_price asset db now
  else none

/-- Embeds `PriceOracle.is_stale` (oracle.py 70–83): `true` for an unknown venue,
an absent entry, or `now − updated_at > threshold`. -/
def PriceOracle.is_stale (o : PriceOracle) (asset exchange : String) (now : ℚ) : Bool :=
  if exchange = "hyperliquid" then
    match o.hl_prices asset with
    | none => true
    | some entry => decide (now - entry.updated_at > o.staleness_s)
  else if exchange = "polymarket" then
    match o.pm_prices asset with
    | none => true
    | some entry => decide (now - entry.updated_at > o.pm_staleness_s)
  else true

/-- Embeds `PriceOracle.update_price` (oracle.py 85–97): write a fresh entry into
the matching cache; unknown venues leave the oracle unchanged. -/
def PriceOracle.update_price (o : PriceOracle) (asset exchange : String) (price : ℚ)
    (source : String) (now : ℚ) : PriceOracle :=
  let entry : PriceEntry := { price := price, updated_at := now, source := source }
  if exchange = "hyperliquid" then
    { o with hl_prices := fun a => if a = asset then some entry else o.hl_prices a }
  else if exchange = "polymarket" then
    { o with pm_prices := fun a => if a = asset then some entry else o.pm_prices a }
  else o

/-! ## engine.py — the paper engine

The engine present in the repository is portfolio-scoped: its constructor
takes `(config, portfolio_id, oracle)` and it carries **no** account venue
or account strategy field.  The database session is modelled by explicit
arguments: the signals table is a `List SignalRow`, and the price resolved
by `PaperEngine._get_price` (oracle, then DB candles) is an
`Option ℚ` argument at the call sites that need it. -/

/-- Embeds `SignalRow` (db/tables/signals.py), the fields the engine reads. -/
structure SignalRow where
  id : ℕ
  ts : ℚ
  strategy : String
  asset : String
  exchange : String
  direction : Direction
  confidence : Option ℚ
  acted_on : Bool
deriving DecidableEq, Repr

/-- Embeds `PaperEngine` (engine.py 34–46): configuration, portfolio id, and an
optional oracle.  Only the oracle's presence matters to
`consume_signals`. -/
structure PaperEngine where
  config : PaperConfig
  portfolio_id : ℕ
  oracle : Option PriceOracle := none

/-- The filter of `consume_signals` (engine.py 89–93): `acted_on == False`,
plus `exchange == "hyperliquid"` only when the engine has no oracle. -/
def consume_filter (oracle_present : Bool) (row : SignalRow) : Bool :=
  !row.acted_on && (oracle_present || row.exchange == "hyperliquid")

/-- Stable insertion by ascending `ts`, the model of `order_by(SignalRow.ts)`. -/
def insertByTs (r : SignalRow) : List SignalRow → List SignalRow
  | [] => [r]
  | x :: xs => if r.ts < x.ts then r :: x :: xs else x :: insertByTs r xs

/-- Stable sort of signal rows by ascending `ts`. -/
def sortByTs : List SignalRow → List SignalRow
  | [] => []
  | x :: xs => insertByTs x (sortByTs xs)

/-- Embeds `PaperEngine.consume_signals` (engine.py 84–100): fetch the rows
passing `consume_filter` ordered by `ts`, mark them `acted_on`, and return
`(returned rows, updated signals table)`. -/
def PaperEngine.consume_signals (e : PaperEngine) (table : List SignalRow) :
    List SignalRow × List SignalRow :=
  let rows := sortByTs (table.filter (consume_filter e.oracle.isSome))
  let table' := table.map fun r =>
    if consume_filter e.oracle.isSome r then { r with acted_on := true } else r
  (rows, table')

/-- The sizing branch shared by `open_position` (engine.py 168–184) and
`check_risk` (engine.py 126–137): Kelly sizing when the scaled allocation
is positive, fixed-fractional otherwise. -/
def PaperEngine.position_quantity (e : PaperEngine) (confidence : Option ℚ)
    (entry_price equity : ℚ) : ℚ :=
  let kelly_alloc := calculate_kelly_allocation confidence e.config
  if kelly_alloc > 0 then
    calculate_position_size_kelly entry_price equity kelly_alloc
      e.config.risk_pct e.config.default_stop_loss_pct
  else
    calculate_position_size entry_price equity
      e.config.risk_pct e.config.default_stop_loss_pct

/-- Embeds `PaperEngine.open_position` (engine.py 152–221): `none` when no price
is available or the computed quantity is zero (no row is inserted in either
case), else the inserted OPEN `Position` row with the slippage-adjusted
entry price. -/
def PaperEngine.open_position (e : PaperEngine) (signal : SignalRow)
    (current_equity : ℚ) (price : Option ℚ) : Option Position :=
  match price with
  | none => none
  | some price =>
      let slippage_pct := e.config.slippage_pct signal.exchange
      let actual_entry_price := apply_slippage price signal.direction slippage_pct true
      let quantity := e.position_quantity signal.confidence actual_entry_price current_equity
      if quantity = 0 then none
      else
        some
          { strategy := signal.strategy
            asset := signal.asset
            exchange := signal.exchange
            direction := signal.direction
            entry_price := actual_entry_price
            quantity := quantity }

/-- The fields `close_position` writes onto the closed row and its
metadata. -/
structure ClosedFields where
  exit_price : ℚ
  realised_pnl : ℚ
  fees : ℚ
  gross_pnl : ℚ
deriving DecidableEq, Repr

/-- Embeds `PaperEngine.close_position` (engine.py 267–307): apply exit slippage,
compute gross P&L and round-trip fees, store `realised_pnl = gross − fees`
and the slippage-adjusted exit price. -/
def PaperEngine.close_position (e : PaperEngine) (position : Position)
    (exit_price : ℚ) : ClosedFields :=
  let slippage_pct := e.config.slippage_pct position.exchange
  let actual_exit_price := apply_slippage exit_price position.direction slippage_pct false
  let gross_pnl := calculate_pnl position.direction position.entry_price actual_exit_price
    position.quantity
  let fee_pct := e.config.fee_pct position.exchange
  let fees := calculate_fees position.entry_price actual_exit_price position.quantity fee_pct
  { exit_price := actual_exit_price
    realised_pnl := gross_pnl - fees
    fees := fees
    gross_pnl := gross_pnl }

/-! ## strategy/strategies/funding.py — the FundingOI strategy -/

/-- One funding snapshot row as seen by the strategies
(models/market.py): signed funding rate with optional open interest and
mark price. -/
structure FundingEntry where
  funding_rate : ℚ
  open_interest : Option ℚ
  mark_price : Option ℚ
deriving DecidableEq, Repr

/-- The part of `MarketSnapshot` the funding strategies read. -/
structure MarketSnapshot where
  asset : String
  funding : List FundingEntry
deriving DecidableEq, Repr

/-- The fields of an emitted `Signal` that FundingOI determines. -/
structure Signal where
  direction : Direction
  confidence : ℚ
  entry_price : ℚ
deriving DecidableEq, Repr

/-- Models `max(oi_values)` over a possibly-empty list, `none` when empty. -/
def maxOfList : List ℚ → Option ℚ
  | [] => none
  | v :: vs => some (vs.foldl max v)

/-- Embeds `FundingOI` (funding.py 67–89): parameters. -/
structure FundingOI where
  funding_threshold : ℚ := 3/2000
  oi_pct : ℚ := 85

/-- Embeds `FundingOI.evaluate` (funding.py 91–138): emit a signal only when
`|rate| > funding_threshold` and `current_oi / max(history OI) · 100 >
oi_pct`; SHORT when the rate is positive, LONG otherwise.  The Python
`latest.mark_price if latest.mark_price else Decimal(0)` maps `none` and 0
alike to 0, i.e. `getD 0`. -/
def FundingOI.evaluate (s : FundingOI) (snapshot : MarketSnapshot) : Option Signal :=
  match snapshot.funding.getLast? with
  | none => none
  | some latest =>
      match latest.open_interest with
      | none => none
      | some current_oi =>
          let oi_values := snapshot.funding.filterMap (fun f => f.open_interest)
          match maxOfList oi_values with
          | none => none
          | some max_oi =>
              if max_oi = 0 then none
              else
                let oiShare := current_oi / max_oi * 100
                let abs_rate := |latest.funding_rate|
                if abs_rate > s.funding_threshold ∧ oiShare > s.oi_pct then
                  some
                    { direction := if latest.funding_rate > 0 then .SHORT else .LONG
                      confidence := min (abs_rate / (s.funding_threshold * 2) * (oiShare / 100)) 1
                      entry_price := latest.mark_price.getD 0 }
                else none

/-! ## Concrete values used by the claim theorems and their witnesses -/

/-- The default-parameter FundingOI strategy
(funding_threshold 0.0015, oi_pct 85). -/
def fundingOI_default : FundingOI := {}

/-- A historical funding row with the window's peak open interest 100. -/
def c6_hist : FundingEntry :=
  { funding_rate := 1/10000, open_interest := some 100, mark_price := none }

/-- Snapshot: history peak OI 100, current OI 95, rate 0.002. -/
def c6_snap1 : MarketSnapshot :=
  { asset := "BTC"
    funding := [c6_hist, { funding_rate := 1/500, open_interest := some 95, mark_price := some 50000 }] }

/-- Snapshot: history peak OI 100, current OI 95, rate 0.001. -/
def c6_snap2 : MarketSnapshot :=
  { asset := "BTC"
    funding := [c6_hist, { funding_rate := 1/1000, open_interest := some 95, mark_price := some 50000 }] }

/-- Snapshot: history peak OI 100, current OI 50, rate 0.002. -/
def c6_snap3 : MarketSnapshot :=
  { asset := "BTC"
    funding := [c6_hist, { funding_rate := 1/500, open_interest := some 50, mark_price := some 50000 }] }

/-- A concrete OPEN position row under the given strategy. -/
def c3_pos (s : String) : Position :=
  { strategy := s, asset := "BTC", exchange := "hyperliquid"
    direction := .LONG, entry_price := 100, quantity := 1 }

/-- An oracle with one cached entry per venue for the asset `"BTC"`,
both written at monotonic time 0. -/
def sample_oracle : PriceOracle :=
  { hl_prices := fun a =>
      if a = "BTC" then some { price := 50000, updated_at := 0, source := "ws" } else none
    pm_prices := fun a =>
      if a = "BTC" then some { price := 1/2, updated_at := 0, source := "db" } else none }

/-- A signal that matches neither a hyperliquid venue nor the
`funding_rate` strategy. -/
def c1_signal : SignalRow :=
  { id := 1, ts := 0, strategy := "rsi_mean_reversion", asset := "BTC"
    exchange := "polymarket", direction := .LONG, confidence := none, acted_on := false }

/-! ## Theorems -/

/-- C2: for every position closed by `close_position`, the stored
`realised_pnl` satisfies `realised_pnl + fees =
direction_sign·(exit_price − entry_price)·quantity` with `direction_sign`
+1 for LONG and −1 for SHORT, `exit_price` the slippage-adjusted stored
exit price, `entry_price` the stored (slippage-adjusted at open) entry
price, and `fees = (entry_notional + exit_notional)·fee_pct`. -/
theorem close_position_pnl_identity (e : PaperEngine) (position : Position) (exit_price : ℚ) :
    (e.close_position position exit_price).realised_pnl
        + (e.close_position position exit_price).fees
      = direction_sign position.direction
        * ((e.close_position position exit_price).exit_price - position.entry_price)
        * position.quantity
    ∧ (e.close_position position exit_price).fees
      = (position.entry_price * position.quantity
          + (e.close_position position exit_price).exit_price * position.quantity)
        * e.config.fee_pct position.exchange := by
  cases hd : position.direction <;>
    refine ⟨?_, ?_⟩ <;>
      simp [PaperEngine.close_position, calculate_pnl, calculate_fees, apply_slippage,
        direction_sign, hd]

/-- C6: `FundingOI.evaluate` emits a signal only when both
`|funding_rate| > funding_threshold` and the current open interest divided
by the window's maximum open interest exceeds `oi_pct` percent; and on the
three concrete scenarios with thresholds (0.0015, 85): peak OI 100,
current 95, rate 0.002 → SHORT; rate 0.001 → no signal; current OI 50 →
no signal. -/
theorem fundingOI_dual_filter :
    (∀ (s : FundingOI) (snapshot : MarketSnapshot) (sig : Signal),
        s.evaluate snapshot = some sig →
        ∃ latest current_oi max_oi,
          snapshot.funding.getLast? = some latest ∧
          latest.open_interest = some current_oi ∧
          maxOfList (snapshot.funding.filterMap (fun f => f.open_interest)) = some max_oi ∧
          |latest.funding_rate| > s.funding_threshold ∧
          current_oi / max_oi * 100 > s.oi_pct) ∧
    (fundingOI_default.evaluate c6_snap1).map Signal.direction = some Direction.SHORT ∧
    fundingOI_default.evaluate c6_snap2 = none ∧
    fundingOI_default.evaluate c6_snap3 = none := by
  refine ⟨?_, ?_, ?_, ?_⟩
  · intro s snapshot sig h
    unfold FundingOI.evaluate at h
    cases hl : snapshot.funding.getLast? with
    | none => rw [hl] at h; cases h
    | some latest =>
      rw [hl] at h
      dsimp only at h
      cases hoi : latest.open_interest with
      | none => rw [hoi] at h; cases h
      | some current_oi =>
        rw [hoi] at h
        dsimp only at h
        cases hmax : maxOfList (snapshot.funding.filterMap fun f => f.open_interest) with
        | none => rw [hmax] at h; cases h
        | some max_oi =>
          rw [hmax] at h
          dsimp only at h
          by_cases h0 : max_oi = 0
          · rw [if_pos h0] at h; cases h
          · rw [if_neg h0] at h
            by_cases hcond :
                |latest.funding_rate| > s.funding_threshold ∧
                  current_oi / max_oi * 100 > s.oi_pct
            · exact ⟨latest, current_oi, max_oi, rfl, hoi, rfl, hcond.1, hcond.2⟩
            · rw [if_neg hcond] at h; cases h
  · norm_num [FundingOI.evaluate, fundingOI_default, c6_snap1, c6_hist, maxOfList,
      List.filterMap, List.foldl, abs_of_pos, min_def, max_def]
  · norm_num [FundingOI.evaluate, fundingOI_default, c6_snap2, c6_hist, maxOfList,
      List.filterMap, List.foldl, abs_of_pos, min_def, max_def]
  · norm_num [FundingOI.evaluate, fundingOI_default, c6_snap3, c6_hist, maxOfList,
      List.filterMap, List.foldl, abs_of_pos, min_def, max_def]

/-- The refresh in `get_state` never changes `last_loss_ts`: the day rollover only resets
the daily counters. -/
theorem get_state_preserves_last_loss (t : RiskTracker) (strategy : String) (now : ℚ) :
    (t.get_state strategy now).last_loss_ts = (t.states strategy).last_loss_ts := by
  unfold RiskTracker.get_state
  dsimp only
  split <;> rfl

/-- After `record_close` with a negative P&L, the strategy's stored
`last_loss_ts` is the close timestamp. -/
theorem record_close_sets_last_loss (tracker : RiskTracker) (strategy : String)
    (pnl t : ℚ) (hpnl : pnl < 0) :
    ((tracker.record_close strategy pnl t).states strategy).last_loss_ts = some t := by
  unfold RiskTracker.record_close
  simp [hpnl]

/-- The update in `record_close` keeps the tracker's configuration. -/
theorem record_close_config (tracker : RiskTracker) (strategy : String) (pnl t : ℚ) :
    (tracker.record_close strategy pnl t).config = tracker.config := rfl

/-- A losing close at `t` puts the strategy in cooldown at every `now`
with `now − t` below the cooldown window. -/
theorem cooldown_after_loss (tracker : RiskTracker) (strategy : String) (pnl t now : ℚ)
    (hpnl : pnl < 0)
    (hwin : now - t < tracker.config.cooldown_after_loss_minutes * 60) :
    (tracker.record_close strategy pnl t).is_in_cooldown strategy now = true := by
  have hll := get_state_preserves_last_loss (tracker.record_close strategy pnl t) strategy now
  rw [record_close_sets_last_loss tracker strategy pnl t hpnl] at hll
  unfold RiskTracker.is_in_cooldown
  dsimp only
  rw [hll]
  simpa [record_close_config] using hwin

/-- C3: `evaluate_risk` checks in the fixed order daily pause, cooldown,
max positions per strategy, max total exposure, returning the first
failing verdict independently of the later checks' inputs; with exactly 3
open positions under a strategy and limit 3 the max-positions check fails
with reason `"max_positions_per_strategy (3/3)"`, while a different
strategy (holding none of those positions) passes that check. -/
theorem risk_gate_order :
    (∀ (config : PaperConfig) (tracker : RiskTracker) (strategy : String)
        (ops : List Position) (equity nv now : ℚ),
        tracker.is_strategy_paused strategy now = true →
        evaluate_risk config tracker strategy ops equity nv now
          = { allowed := false, reason := "daily_loss_limit_exceeded" }) ∧
    (∀ (config : PaperConfig) (tracker : RiskTracker) (strategy : String)
        (ops : List Position) (equity nv now : ℚ),
        tracker.is_strategy_paused strategy now = false →
        tracker.is_in_cooldown strategy now = true →
        evaluate_risk config tracker strategy ops equity nv now
          = { allowed := false, reason := "cooldown_active" }) ∧
    (∀ (config : PaperConfig) (tracker : RiskTracker) (strategy : String)
        (ops : List Position) (equity nv now : ℚ),
        tracker.is_strategy_paused strategy now = false →
        tracker.is_in_cooldown strategy now = false →
        (check_max_positions_per_strategy strategy ops
            config.max_positions_per_strategy).allowed = false →
        evaluate_risk config tracker strategy ops equity nv now
          = check_max_positions_per_strategy strategy ops
              config.max_positions_per_strategy) ∧
    (∀ (config : PaperConfig) (tracker : RiskTracker) (strategy : String)
        (ops : List Position) (equity nv now : ℚ),
        tracker.is_strategy_paused strategy now = false →
        tracker.is_in_cooldown strategy now = false →
        (check_max_positions_per_strategy strategy ops
            config.max_positions_per_strategy).allowed = true →
        ((check_max_total_exposure ops equity nv config.max_total_exposure_pct).allowed = false →
            evaluate_risk config tracker strategy ops equity nv now
              = check_max_total_exposure ops equity nv config.max_total_exposure_pct) ∧
        ((check_max_total_exposure ops equity nv config.max_total_exposure_pct).allowed = true →
            evaluate_risk config tracker strategy ops equity nv now
              = { allowed := true })) ∧
    (∀ (strategy : String) (ops : List Position),
        (ops.filter (fun p => p.strategy = strategy)).length = 3 →
        check_max_positions_per_strategy strategy ops 3
          = { allowed := false, reason := "max_positions_per_strategy (3/3)" }) ∧
    (∀ (strategy strategy2 : String) (ops : List Position),
        (∀ p ∈ ops, p.strategy = strategy) → strategy2 ≠ strategy →
        (check_max_positions_per_strategy strategy2 ops 3).allowed = true) := by
  refine ⟨?_, ?_, ?_, ?_, ?_, ?_⟩
  · intro config tracker strategy ops equity nv now h
    simp [evaluate_risk, h]
  · intro config tracker strategy ops equity nv now h1 h2
    simp [evaluate_risk, h1, h2]
  · intro config tracker strategy ops equity nv now h1 h2 h3
    simp [evaluate_risk, h1, h2, h3]
  · intro config tracker strategy ops equity nv now h1 h2 h3
    constructor
    · intro h4
      simp [evaluate_risk, h1, h2, h3, h4]
    · intro h4
      simp [evaluate_risk, h1, h2, h3, h4]
  · intro strategy ops h
    simp only [check_max_positions_per_strategy, h]
    norm_num
    decide
  · intro strategy strategy2 ops hall hne
    have hfil : ops.filter (fun p => p.strategy = strategy2) = [] := by
      rw [List.filter_eq_nil_iff]
      intro p hp
      simp only [decide_eq_true_eq]
      rw [hall p hp]
      exact fun h => hne h.symm
    simp [check_max_positions_per_strategy, hfil]

/-- C3 witness: with exactly three OPEN positions under `"s"` and limit 3,
the max-positions check rejects with reason
`"max_positions_per_strategy (3/3)"`, and a different strategy passes it. -/
theorem risk_gate_order_witness :
    check_max_positions_per_strategy "s" [c3_pos "s", c3_pos "s", c3_pos "s"] 3
      = { allowed := false, reason := "max_positions_per_strategy (3/3)" } ∧
    (check_max_positions_per_strategy "other" [c3_pos "s", c3_pos "s", c3_pos "s"] 3).allowed
      = true :=
  ⟨risk_gate_order.2.2.2.2.1 "s" [c3_pos "s", c3_pos "s", c3_pos "s"] (by decide),
   risk_gate_order.2.2.2.2.2 "s" "other" [c3_pos "s", c3_pos "s", c3_pos "s"]
     (by decide) (by decide)⟩

/-- C7 counterexample: after a losing close at time 0 under the default
configuration (cooldown 5 minutes), a signal for the same strategy at
time 60 s is rejected, but the rejection reason string is
`"cooldown_active"`, not `"cooldown"` as the claim states. -/
theorem cooldown_reason_counterexample :
    (evaluate_risk {} (({ config := {} } : RiskTracker).record_close "s" (-10) 0)
        "s" [] 10000 0 60).allowed = false ∧
    (evaluate_risk {} (({ config := {} } : RiskTracker).record_close "s" (-10) 0)
        "s" [] 10000 0 60).reason = "cooldown_active" ∧
    "cooldown_active" ≠ "cooldown" := by
  refine ⟨?_, ?_, by decide⟩ <;>
    · simp [evaluate_risk, RiskTracker.is_strategy_paused, RiskTracker.is_in_cooldown,
        RiskTracker.record_close, RiskTracker.get_state, utc_day]
      norm_num

/-- C7 (amended): after a losing close at `t`, every signal for that
strategy at any `now` with `now − t` below the cooldown window is rejected
by the risk gate, and — whenever the daily-loss pause (checked first) is
not itself triggered — the rejection reason is `"cooldown_active"`. -/
theorem cooldown_rejection (config : PaperConfig) (tracker : RiskTracker) (strategy : String)
    (ops : List Position) (equity nv : ℚ) (pnl t now : ℚ)
    (hpnl : pnl < 0)
    (hwin : now - t < tracker.config.cooldown_after_loss_minutes * 60) :
    (evaluate_risk config (tracker.record_close strategy pnl t) strategy
        ops equity nv now).allowed = false ∧
    ((tracker.record_close strategy pnl t).is_strategy_paused strategy now = false →
      (evaluate_risk config (tracker.record_close strategy pnl t) strategy
          ops equity nv now).reason = "cooldown_active") := by
  have hcool := cooldown_after_loss tracker strategy pnl t now hpnl hwin
  constructor
  · cases hp : (tracker.record_close strategy pnl t).is_strategy_paused strategy now with
    | true => simp [evaluate_risk, hp]
    | false => simp [evaluate_risk, hp, hcool]
  · intro hp
    simp [evaluate_risk, hp, hcool]

/-- C7 witness: the amended claim at the concrete counterexample input —
loss of 10 at time 0, signal at 60 s, default 5-minute cooldown. -/
theorem cooldown_rejection_witness :
    (evaluate_risk {} (({ config := {} } : RiskTracker).record_close "s" (-10) 0)
        "s" [] 10000 0 60).allowed = false :=
  (cooldown_rejection {} { config := {} } "s" [] 10000 0 (-10) 0 60
    (by norm_num) (by norm_num)).1

/-- C8: the UTC-day rollover in `_get_state` resets `daily_loss` and
`daily_wins` but never `last_loss_ts`; hence after a losing close at `t`
the strategy is in cooldown at every `now` with `now − t` below the
cooldown window, including when `now` falls on a later UTC day. -/
theorem cooldown_survives_day_rollover (tracker : RiskTracker) (strategy : String)
    (pnl t now : ℚ)
    (hpnl : pnl < 0)
    (hwin : now - t < tracker.config.cooldown_after_loss_minutes * 60) :
    (tracker.record_close strategy pnl t).is_in_cooldown strategy now = true ∧
    (∀ (tr : RiskTracker) (s : String) (n : ℚ),
        (tr.get_state s n).last_loss_ts = (tr.states s).last_loss_ts) ∧
    (∀ (tr : RiskTracker) (s : String) (n : ℚ),
        (tr.states s).day_key ≠ some (utc_day n) →
        (tr.get_state s n).daily_loss = 0 ∧ (tr.get_state s n).daily_wins = 0) := by
  refine ⟨cooldown_after_loss tracker strategy pnl t now hpnl hwin,
    get_state_preserves_last_loss, ?_⟩
  intro tr s n hday
  unfold RiskTracker.get_state
  rw [if_neg hday]
  exact ⟨rfl, rfl⟩

/-- C8 witness: loss at t = 86300 (UTC day 0), signal at now = 86500
(UTC day 1), 200 s elapsed within the default 300 s cooldown window:
still in cooldown across the rollover. -/
theorem cooldown_survives_day_rollover_witness :
    utc_day 86300 ≠ utc_day 86500 ∧
    (({ config := {} } : RiskTracker).record_close "s" (-10) 86300).is_in_cooldown
      "s" 86500 = true :=
  ⟨by norm_num [utc_day, Int.floor_eq_iff],
   (cooldown_survives_day_rollover { config := {} } "s" (-10) 86300 86500
     (by norm_num) (by norm_num)).1⟩

/-- C6 witness: the only-when direction of `fundingOI_dual_filter`
evaluated on the concrete SHORT scenario snapshot. -/
theorem fundingOI_dual_filter_witness :
    ∃ latest current_oi max_oi,
      c6_snap1.funding.getLast? = some latest ∧
      latest.open_interest = some current_oi ∧
      maxOfList (c6_snap1.funding.filterMap (fun f => f.open_interest)) = some max_oi ∧
      |latest.funding_rate| > fundingOI_default.funding_threshold ∧
      current_oi / max_oi * 100 > fundingOI_default.oi_pct :=
  fundingOI_dual_filter.1 fundingOI_default c6_snap1
    { direction := .SHORT, confidence := 19/30, entry_price := 50000 }
    (by norm_num [FundingOI.evaluate, fundingOI_default, c6_snap1, c6_hist, maxOfList,
      List.filterMap, List.foldl, abs_of_pos, min_def, max_def])

/-- C4: `is_stale` is true exactly when the cache entry is absent or
`monotonic_now − entry.timestamp` exceeds the venue's threshold, and
`get_price` never returns a price from a stale entry: a stale entry yields
`none` for the streaming (hyperliquid) venue and exactly the store
fallback result (a value or `none`) for the polling (polymarket) venue. -/
theorem oracle_staleness (o : PriceOracle) (asset : String) (db : Option ℚ) (now : ℚ) :
    (o.is_stale asset "hyperliquid" now = true ↔
      o.hl_prices asset = none ∨
        ∃ entry, o.hl_prices asset = some entry ∧ now - entry.updated_at > o.staleness_s) ∧
    (o.is_stale asset "polymarket" now = true ↔
      o.pm_prices asset = none ∨
        ∃ entry, o.pm_prices asset = some entry ∧ now - entry.updated_at > o.pm_staleness_s) ∧
    (o.is_stale asset "hyperliquid" now = true →
      o.get_price asset "hyperliquid" db now = none) ∧
    (o.is_stale asset "polymarket" now = true →
      o.get_price asset "polymarket" db now = db) := by
  refine ⟨?_, ?_, ?_, ?_⟩
  · unfold PriceOracle.is_stale
    cases h : o.hl_prices asset with
    | none => simp [h]
    | some entry => simp [h]
  · unfold PriceOracle.is_stale
    cases h : o.pm_prices asset with
    | none => simp [h]
    | some entry => simp [h]
  · intro hstale
    unfold PriceOracle.is_stale at hstale
    unfold PriceOracle.get_price PriceOracle.get_hl_price
    cases h : o.hl_prices asset with
    | none => simp [h]
    | some entry =>
      rw [h] at hstale
      simp at hstale
      simp [h]
      linarith
  · intro hstale
    unfold PriceOracle.is_stale at hstale
    unfold PriceOracle.get_price PriceOracle.get_pm_price
    cases h : o.pm_prices asset with
    | none => simp [h]
    | some entry =>
      rw [h] at hstale
      simp at hstale
      simp [h]
      intro hle
      linarith

/-- C4 witness: at monotonic time 31 the 30 s hyperliquid entry is stale
and `get_price` yields `none`; at time 1000 the 600 s polymarket entry is
stale and `get_price` yields the store fallback value. -/
theorem oracle_staleness_witness :
    sample_oracle.is_stale "BTC" "hyperliquid" 31 = true ∧
    sample_oracle.get_price "BTC" "hyperliquid" (some 42) 31 = none ∧
    sample_oracle.is_stale "BTC" "polymarket" 1000 = true ∧
    sample_oracle.get_price "BTC" "polymarket" (some 42) 1000 = some 42 := by
  have hhl : sample_oracle.is_stale "BTC" "hyperliquid" 31 = true := by
    simp [PriceOracle.is_stale, sample_oracle]
    norm_num
  have hpm : sample_oracle.is_stale "BTC" "polymarket" 1000 = true := by
    simp [PriceOracle.is_stale, sample_oracle]
    norm_num
  exact ⟨hhl, (oracle_staleness sample_oracle "BTC" (some 42) 31).2.2.1 hhl,
    hpm, (oracle_staleness sample_oracle "BTC" (some 42) 1000).2.2.2 hpm⟩

/-- C10: for every venue string other than `"hyperliquid"` and
`"polymarket"`, `get_price` returns `none`, `is_stale` returns true, and
`update_price` leaves both caches unchanged. -/
theorem unknown_venue_inert (o : PriceOracle) (asset venue : String) (db : Option ℚ)
    (price : ℚ) (source : String) (now : ℚ)
    (h1 : venue ≠ "hyperliquid") (h2 : venue ≠ "polymarket") :
    o.get_price asset venue db now = none ∧
    o.is_stale asset venue now = true ∧
    o.update_price asset venue price source now = o := by
  refine ⟨?_, ?_, ?_⟩ <;>
    simp [PriceOracle.get_price, PriceOracle.is_stale, PriceOracle.update_price, h1, h2]

/-- C10 witness: the venue `"binance"` resolves no price, is always stale,
and its updates do not change the oracle. -/
theorem unknown_venue_inert_witness :
    sample_oracle.get_price "BTC" "binance" (some 42) 0 = none ∧
    sample_oracle.is_stale "BTC" "binance" 0 = true ∧
    sample_oracle.update_price "BTC" "binance" 5 "manual" 0 = sample_oracle :=
  unknown_venue_inert sample_oracle "BTC" "binance" (some 42) 5 "manual" 0
    (by decide) (by decide)

/-- With a zero stop-loss percentage the Kelly allocation is always 0. -/
theorem kelly_allocation_zero_stop (confidence : Option ℚ) (config : PaperConfig)
    (h : config.default_stop_loss_pct = 0) :
    calculate_kelly_allocation confidence config = 0 := by
  unfold calculate_kelly_allocation calculate_kelly_fraction
  cases confidence <;> simp [h]

/-- C9: with `stop_loss_pct = 0`, `calculate_position_size` returns
quantity 0 rather than dividing by the zero stop distance, and
`open_position` then inserts no position row and returns `none`. -/
theorem zero_stop_loss_safe (entry_price equity risk_pct : ℚ)
    (e : PaperEngine) (signal : SignalRow) (current_equity : ℚ) (price : Option ℚ)
    (hstop : e.config.default_stop_loss_pct = 0) :
    calculate_position_size entry_price equity risk_pct 0 = 0 ∧
    e.open_position signal current_equity price = none := by
  constructor
  · simp [calculate_position_size]
  · cases price with
    | none => rfl
    | some p =>
      unfold PaperEngine.open_position PaperEngine.position_quantity
      dsimp only
      rw [kelly_allocation_zero_stop signal.confidence e.config hstop]
      simp [calculate_position_size, hstop]

/-- C9 witness: a zero-stop configuration sizes to quantity 0 and opens no
position from a priced signal. -/
theorem zero_stop_loss_safe_witness :
    calculate_position_size 100 10000 (1/50) 0 = 0 ∧
    ({ config := { default_stop_loss_pct := 0 }, portfolio_id := 0 } : PaperEngine).open_position
      { id := 1, ts := 0, strategy := "funding_rate", asset := "BTC",
        exchange := "hyperliquid", direction := .LONG, confidence := some (1/2),
        acted_on := true }
      10000 (some 100) = none :=
  zero_stop_loss_safe 100 10000 (1/50)
    { config := { default_stop_loss_pct := 0 }, portfolio_id := 0 }
    { id := 1, ts := 0, strategy := "funding_rate", asset := "BTC",
      exchange := "hyperliquid", direction := .LONG, confidence := some (1/2),
      acted_on := true }
    10000 (some 100) rfl

/-- Fixed-fractional sizing with nonzero entry price and stop percentage
evaluates to `equity·risk_pct / (entry_price·stop_loss_pct)`. -/
theorem fixed_fractional_eval (entry_price equity risk_pct stop_loss_pct : ℚ)
    (hentry : entry_price ≠ 0) (hstop : stop_loss_pct ≠ 0) :
    calculate_position_size entry_price equity risk_pct stop_loss_pct
      = equity * risk_pct / (entry_price * stop_loss_pct) := by
  unfold calculate_position_size
  dsimp only
  rw [if_neg (mul_ne_zero hentry hstop)]

/-- When the scaled Kelly fraction is positive, `calculate_kelly_fraction`
returns exactly `sf·((p·b − (1−p))/b)` with `b = tp/stop`. -/
theorem kelly_fraction_pos_eval (p stop tp sf : ℚ) (hstop : stop ≠ 0) (hsf : 0 ≤ sf)
    (hk : 0 < sf * ((p * (tp / stop) - (1 - p)) / (tp / stop))) :
    calculate_kelly_fraction p stop tp sf
      = sf * ((p * (tp / stop) - (1 - p)) / (tp / stop)) := by
  unfold calculate_kelly_fraction
  rw [if_neg hstop]
  dsimp only
  by_cases hb : tp / stop = 0
  · rw [hb] at hk
    simp at hk
  · rw [if_neg hb]
    by_cases hkraw : (p * (tp / stop) - (1 - p)) / (tp / stop) ≤ 0
    · exfalso
      nlinarith [hk]
    · rw [if_neg hkraw]
      ring

/-- When the scaled Kelly fraction is non-positive (with a non-negative
safety factor), `calculate_kelly_fraction` returns 0. -/
theorem kelly_fraction_nonpos_eval (p stop tp sf : ℚ) (hstop : stop ≠ 0) (hsf : 0 ≤ sf)
    (hk : sf * ((p * (tp / stop) - (1 - p)) / (tp / stop)) ≤ 0) :
    calculate_kelly_fraction p stop tp sf = 0 := by
  unfold calculate_kelly_fraction
  rw [if_neg hstop]
  dsimp only
  by_cases hb : tp / stop = 0
  · rw [if_pos hb]
  · rw [if_neg hb]
    by_cases hkraw : (p * (tp / stop) - (1 - p)) / (tp / stop) ≤ 0
    · rw [if_pos hkraw]
    · push_neg at hkraw
      have h1 : sf ≤ 0 := by nlinarith
      have hsf0 : sf = 0 := le_antisymm h1 hsf
      rw [if_neg (not_le.mpr hkraw), hsf0, mul_zero]

/-- With Kelly enabled and a present confidence, the allocation is the
Kelly fraction of the mapped win probability. -/
theorem kelly_allocation_some (c : ℚ) (config : PaperConfig)
    (hen : config.kelly_enabled = true) :
    calculate_kelly_allocation (some c) config
      = calculate_kelly_fraction
          (config.kelly_base_win_prob + c * (1 - config.kelly_base_win_prob))
          config.default_stop_loss_pct config.default_take_profit_pct
          config.kelly_safety_factor := by
  unfold calculate_kelly_allocation confidence_to_win_prob
  simp [hen]

/-- With a nonzero entry price and a positive allocation,
`calculate_position_size_kelly` evaluates to the capped notional divided
by the entry price. -/
theorem kelly_size_eval (entry_price equity alloc risk_pct stop_loss_pct : ℚ)
    (hentry : entry_price ≠ 0) (halloc : 0 < alloc) :
    calculate_position_size_kelly entry_price equity alloc risk_pct stop_loss_pct
      = min (equity * alloc) (equity * risk_pct / stop_loss_pct) / entry_price := by
  unfold calculate_position_size_kelly
  rw [if_neg (by push_neg; exact ⟨hentry, halloc⟩)]

/-- C5: with Kelly enabled and confidence `c`, the engine maps `c` to the
win probability `p = base + c·(1 − base)`, forms `b = tp_pct/stop_pct` and
the safety-scaled Kelly fraction `k = sf·((p·b − (1−p))/b)`; when `k > 0`
the quantity is `min(equity·k, equity·risk_pct/stop_pct) / entry_price`,
and when `k ≤ 0` or confidence is absent it falls back to the
fixed-fractional `equity·risk_pct / (entry_price·stop_pct)`. -/
theorem kelly_sizing (e : PaperEngine) (c entry_price equity p b k : ℚ)
    (hp : p = e.config.kelly_base_win_prob + c * (1 - e.config.kelly_base_win_prob))
    (hb : b = e.config.default_take_profit_pct / e.config.default_stop_loss_pct)
    (hk : k = e.config.kelly_safety_factor * ((p * b - (1 - p)) / b))
    (hen : e.config.kelly_enabled = true)
    (hstop : e.config.default_stop_loss_pct ≠ 0)
    (hsf : 0 ≤ e.config.kelly_safety_factor)
    (hentry : entry_price ≠ 0) :
    (0 < k →
      e.position_quantity (some c) entry_price equity
        = min (equity * k) (equity * e.config.risk_pct / e.config.default_stop_loss_pct)
            / entry_price) ∧
    (k ≤ 0 →
      e.position_quantity (some c) entry_price equity
        = equity * e.config.risk_pct / (entry_price * e.config.default_stop_loss_pct)) ∧
    e.position_quantity none entry_price equity
      = equity * e.config.risk_pct / (entry_price * e.config.default_stop_loss_pct) := by
  subst hp
  subst hb
  subst hk
  have halloc := kelly_allocation_some c e.config hen
  refine ⟨?_, ?_, ?_⟩
  · intro hkpos
    have hfrac := kelly_fraction_pos_eval _ _ _ _ hstop hsf hkpos
    unfold PaperEngine.position_quantity
    dsimp only
    rw [halloc, hfrac, if_pos hkpos]
    exact kelly_size_eval _ _ _ _ _ hentry hkpos
  · intro hknp
    have hfrac := kelly_fraction_nonpos_eval _ _ _ _ hstop hsf hknp
    unfold PaperEngine.position_quantity
    dsimp only
    rw [halloc, hfrac, if_neg (lt_irrefl 0)]
    exact fixed_fractional_eval _ _ _ _ hentry hstop
  · unfold PaperEngine.position_quantity
    dsimp only
    have hzero : calculate_kelly_allocation none e.config = 0 := by
      unfold calculate_kelly_allocation
      simp
    rw [hzero, if_neg (lt_irrefl 0)]
    exact fixed_fractional_eval _ _ _ _ hentry hstop

/-- C5 witness: default config (Kelly on, base 0.5, safety 0.5,
stop 0.02, tp 0.04, risk 0.02), confidence 0.8: p = 0.9, b = 2,
k = 17/40 > 0, and the quantity at equity 10000 and entry 100 is
min(4250, 10000)/100 = 42.5. -/
theorem kelly_sizing_witness :
    (0:ℚ) < 17/40 ∧
    ({ config := {}, portfolio_id := 0 } : PaperEngine).position_quantity
      (some (4/5)) 100 10000 = 85/2 := by
  have h := (kelly_sizing { config := {}, portfolio_id := 0 } (4/5) 100 10000 (9/10) 2 (17/40)
      (by norm_num) (by norm_num) (by norm_num) rfl (by norm_num) (by norm_num)
      (by norm_num)).1 (by norm_num)
  refine ⟨by norm_num, ?_⟩
  rw [h]
  norm_num [min_def]

/-- C1 (code bug): the repository's `consume_signals` filters only on
`acted_on == False` (plus `exchange == "hyperliquid"` when the engine has
no oracle); the `PaperEngine` in engine.py carries no account venue or
account strategy at all, while runner.py constructs engines with
`account_exchange`/`account_strategy` and the test suite asserts
account-scoped consumption.  Concretely, an engine with an oracle consumes
— and marks `acted_on` — a pending signal whose strategy and exchange
match no account scope. -/
theorem consume_signals_unscoped :
    (({ config := {}, portfolio_id := 1, oracle := some {} } : PaperEngine).consume_signals
        [c1_signal]).1 = [c1_signal] ∧
    c1_signal.strategy ≠ "funding_rate" ∧
    c1_signal.exchange ≠ "hyperliquid" ∧
    (({ config := {}, portfolio_id := 1, oracle := some {} } : PaperEngine).consume_signals
        [c1_signal]).2 = [{ c1_signal with acted_on := true }] := by
  refine ⟨rfl, by decide, by decide, rfl⟩

end TradingCore
